import Mathlib

/- Verification of the PDFtoEPUB pipeline against its specification.

   Shallow embedding of the three core modules of the repository:
   - `src/pdf_extractor.py`  (class `PDFExtractor`): glyph line-grouping,
     bottom-left-origin to top-left-origin coordinate flip, image extraction
     with per-image error recovery, inverted-CMYK color conversion;
   - `src/epub_generator_v2.py` (class `EPUBGeneratorV2`): the generated
     package tree, per-page XHTML documents, ZIP packaging with the
     uncompressed-first `mimetype` entry;
   - `src/validator.py` (class `ContentValidator`): the six-check validation
     battery and its report.

   PDF coordinates and font sizes (Python floats) are modelled as rationals;
   the float computations of the source involve only sums/differences and
   small literals, so the rational semantics agrees with IEEE doubles on all
   inputs considered here.  Byte strings and decoded text are modelled as
   `String` / `List Char`.  External collaborators (pdfplumber, PIL, lxml,
   zipfile) are modelled at their interface boundary: what the source reads
   from them becomes a field of an input structure. -/

namespace PdfToEpub

/- ---------------------------------------------------------------------
   Python primitives used by the source (str operations, round).
   --------------------------------------------------------------------- -/

/-- Python `pat in s` substring test on character lists (structural, so the
kernel can evaluate it). -/
def strIn (pat : List Char) : List Char → Bool
  | [] => pat.isEmpty
  | c :: rest => pat.isPrefixOf (c :: rest) || strIn pat rest

/-- Python `s.endswith(pat)`. -/
def pyEndsWith (s pat : String) : Bool :=
  pat.data.isSuffixOf s.data

/-- Python `s.startswith(pat)`. -/
def pyStartsWith (s pat : String) : Bool :=
  pat.data.isPrefixOf s.data

/-- Python `pat in s` on `String`. -/
def pyIn (pat s : String) : Bool :=
  strIn pat.data s.data

/-- Python `s.strip()` with no argument: drop leading and trailing
whitespace characters. -/
def pyStrip (s : String) : String :=
  ⟨((s.data.dropWhile Char.isWhitespace).reverse.dropWhile Char.isWhitespace).reverse⟩

/-- Python `round(x, 1)`: round to one decimal place.  (Python's float
`round` breaks ties to even; no input in this development sits on a tie, so
the round-half-up convention of Mathlib's `round` agrees with it on
everything proved below.) -/
def round1 (q : ℚ) : ℚ :=
  (round (10 * q) : ℤ) / 10

/- ---------------------------------------------------------------------
   Data model of `src/pdf_extractor.py` (dataclasses `TextElement`,
   `ImageElement`, `PageContent`) and the glyph records the extractor
   reads from the document reader (`page.chars` entries: the source
   accesses keys `text`, `x0`, `y0`, `x1`, `y1` and uses
   `.get('font', 'Unknown')` / `.get('size', 12)`, hence the `Option`
   fields with those defaults).
   --------------------------------------------------------------------- -/

structure Glyph where
  text : String
  x0 : ℚ
  y0 : ℚ
  x1 : ℚ
  y1 : ℚ
  font : Option String
  size : Option ℚ
deriving DecidableEq, Repr

structure TextElement where
  text : String
  x0 : ℚ
  y0 : ℚ
  x1 : ℚ
  y1 : ℚ
  font_name : String
  font_size : ℚ
  is_bold : Bool
  is_italic : Bool
  line_height : ℚ
  page_num : ℕ
deriving DecidableEq, Repr

structure ImageElement where
  image_path : String
  x0 : ℚ
  y0 : ℚ
  x1 : ℚ
  y1 : ℚ
  width : ℚ
  height : ℚ
  page_num : ℕ
deriving DecidableEq, Repr

structure PageContent where
  page_num : ℕ
  page_width : ℚ
  page_height : ℚ
  text_elements : List TextElement
  image_elements : List ImageElement
deriving DecidableEq, Repr

/- ---------------------------------------------------------------------
   Coordinate flip (pdf_extractor.py lines 144-147 and 203-208): PDF
   bottom-left-origin vertical extents become HTML top-left-origin
   extents; `y0_html = page_height - y1`, `y1_html = page_height - y0`.
   --------------------------------------------------------------------- -/

/-- The vertical coordinate transform of `_extract_text` /
`_extract_images`: given a source extent `(y0, y1)` on a page of height
`h`, produce `(y0_html, y1_html) = (h - y1, h - y0)`. -/
def flipY (h y0 y1 : ℚ) : ℚ × ℚ :=
  (h - y1, h - y0)

/- ---------------------------------------------------------------------
   `PDFExtractor._extract_text` (pdf_extractor.py lines 115-168).
   Glyphs are bucketed in a dict keyed by `round(char['y0'], 1)`; the
   buckets are processed in ascending key order (`sorted(lines.keys())`),
   each bucket sorted by `x0` (`sorted(..., key=lambda c: c['x0'])`),
   its texts concatenated, whitespace-only lines skipped, and one
   `TextElement` built from the first and last glyph of the sorted bucket.
   --------------------------------------------------------------------- -/

/-- The distinct rounded `y0` keys of the line dict, in ascending order
(`sorted(lines.keys())`). -/
def lineKeys (chars : List Glyph) : List ℚ :=
  ((chars.map fun c => round1 c.y0).dedup).insertionSort (· ≤ ·)

/-- The bucket of glyphs whose rounded `y0` equals `y`, sorted by ascending
`x0` (`sorted(lines[y_key], key=lambda c: c['x0'])`). -/
def lineChars (chars : List Glyph) (y : ℚ) : List Glyph :=
  (chars.filter fun c => round1 c.y0 = y).insertionSort (fun a b => a.x0 ≤ b.x0)

/-- The concatenated text of a bucket (`''.join([c['text'] for c in line_chars])`). -/
def lineText (lc : List Glyph) : String :=
  String.join (lc.map fun c => c.text)

/-- Build the `TextElement` of one non-empty bucket, or `none` when the
concatenated text is whitespace-only (`if line_text.strip():`). -/
def mkLineElem (page_height : ℚ) (page_num : ℕ) : List Glyph → Option TextElement
  | [] => none
  | c0 :: rest =>
    let lc := c0 :: rest
    let t := lineText lc
    if pyStrip t = "" then none
    else
      let last := rest.getLastD c0
      let y0_html := page_height - last.y1
      let y1_html := page_height - c0.y0
      let font_name := c0.font.getD "Unknown"
      some
        { text := t
          x0 := c0.x0
          y0 := y0_html
          x1 := last.x1
          y1 := y1_html
          font_name := font_name
          font_size := c0.size.getD 12
          is_bold := pyIn "Bold" font_name
          is_italic := pyIn "Italic" font_name || pyIn "Oblique" font_name
          line_height := y1_html - y0_html
          page_num := page_num }

/-- `PDFExtractor._extract_text`: the list of `TextElement`s of one page,
given the page height and the page's glyphs. -/
def extractText (page_height : ℚ) (page_num : ℕ) (chars : List Glyph) : List TextElement :=
  (lineKeys chars).filterMap fun y => mkLineElem page_height page_num (lineChars chars y)

/- ---------------------------------------------------------------------
   `PDFExtractor._extract_images` (pdf_extractor.py lines 170-225).
   Each entry of `page.images` carries its placement box; the body of the
   per-image `try` block (get_rawdata / Image.open / mode conversion /
   save) can raise, in which case the `except` branch prints a warning
   and the loop continues with the next image.  Whether that pipeline
   succeeds is modelled by the `decodeOk` flag of the raw image record;
   printed warnings are modelled as returned log lines.
   --------------------------------------------------------------------- -/

structure RawImage where
  x0 : ℚ
  y0 : ℚ
  x1 : ℚ
  y1 : ℚ
  decodeOk : Bool
deriving DecidableEq, Repr

/-- Zero-padded two-digit index (`{img_index:02d}`). -/
def pad2 (n : ℕ) : String :=
  if n < 10 then "0" ++ toString n else toString n

/-- Zero-padded three-digit page number (`{page_num:03d}`). -/
def pad3 (n : ℕ) : String :=
  if n < 10 then "00" ++ toString n
  else if n < 100 then "0" ++ toString n
  else toString n

/-- `f"page_{page_num:03d}_img_{img_index:02d}.png"`. -/
def imgFilename (page_num idx : ℕ) : String :=
  "page_" ++ pad3 page_num ++ "_img_" ++ pad2 idx ++ ".png"

/-- The `ImageElement` built for the image at loop index `idx`
(pdf_extractor.py lines 203-220). -/
def mkImgElem (page_height : ℚ) (page_num idx : ℕ) (img : RawImage) : ImageElement :=
  let y0_html := page_height - img.y1
  let y1_html := page_height - img.y0
  { image_path := imgFilename page_num idx
    x0 := img.x0
    y0 := y0_html
    x1 := img.x1
    y1 := y1_html
    width := img.x1 - img.x0
    height := y1_html - y0_html
    page_num := page_num }

/-- The `enumerate(page.images)` loop of `_extract_images`, carrying the
running index: returns the produced elements and the warning lines. -/
def extractImagesGo (page_height : ℚ) (page_num : ℕ) :
    ℕ → List RawImage → List ImageElement × List String
  | _, [] => ([], [])
  | idx, img :: rest =>
    let tail := extractImagesGo page_height page_num (idx + 1) rest
    if img.decodeOk then
      (mkImgElem page_height page_num idx img :: tail.1, tail.2)
    else
      (tail.1, ("Warning: Could not extract image on page " ++ toString page_num) :: tail.2)

/-- `PDFExtractor._extract_images`. -/
def extractImages (page_height : ℚ) (page_num : ℕ) (imgs : List RawImage) :
    List ImageElement × List String :=
  extractImagesGo page_height page_num 0 imgs

/- ---------------------------------------------------------------------
   `PDFExtractor._cmyk_to_rgb_balanced` (pdf_extractor.py lines 227-259).
   Pixel channels are the raw uint8 values of the CMYK buffer.  The
   numpy pipeline computes float channels, casts the stacked result with
   `.astype(np.uint8)` (values lie in [0, 255], so the cast floors), and
   `ImageEnhance.Color(...).enhance(0.75)` blends each pixel with its
   grayscale at factor 0.75 (PIL's saturation enhancement, modelled at
   its interface).  The `except` branch returns `image.convert('RGB')`,
   PIL's own best-effort conversion, modelled by the `pilRgb` field; the
   `try` body's possible numpy failure is modelled by `decodeOk`.
   --------------------------------------------------------------------- -/

structure CmykPixel where
  c : ℕ
  m : ℕ
  y : ℕ
  k : ℕ
deriving DecidableEq, Repr

structure CmykImage where
  pixels : List CmykPixel
  decodeOk : Bool
  pilRgb : List (ℚ × ℚ × ℚ)
deriving DecidableEq, Repr

/-- One inverted channel: `(255.0 - raw) / 255.0`. -/
def invChan (raw : ℚ) : ℚ :=
  (255 - raw) / 255

/-- `np.float32 -> np.uint8` cast for a value known to lie in `[0, 255]`:
truncation toward zero, i.e. the floor. -/
def quantByte (q : ℚ) : ℕ :=
  (⌊q⌋).toNat

/-- The float RGB triple of one pixel before the uint8 cast:
`r = 255 * (1 - c) * (1 - k)` and likewise for `g`, `b`, with the
inverted channels of `invChan`. -/
def cmykPixelRgb (p : CmykPixel) : ℚ × ℚ × ℚ :=
  let c := invChan p.c
  let m := invChan p.m
  let y := invChan p.y
  let k := invChan p.k
  (255 * (1 - c) * (1 - k), 255 * (1 - m) * (1 - k), 255 * (1 - y) * (1 - k))

/-- ITU-R 601-2 luma used by PIL's grayscale conversion. -/
def grayL (r g b : ℚ) : ℚ :=
  (299 * r + 587 * g + 114 * b) / 1000

/-- PIL `ImageEnhance.Color(img).enhance(factor)` at its interface: blend
each pixel with its grayscale by `factor`. -/
def enhanceColor (factor : ℚ) (px : ℚ × ℚ × ℚ) : ℚ × ℚ × ℚ :=
  let l := grayL px.1 px.2.1 px.2.2
  (l + factor * (px.1 - l), l + factor * (px.2.1 - l), l + factor * (px.2.2 - l))

/-- `PDFExtractor._cmyk_to_rgb_balanced` on the pixel buffer. -/
def cmykToRgbBalanced (img : CmykImage) : List (ℚ × ℚ × ℚ) :=
  if img.decodeOk then
    img.pixels.map fun p =>
      let fl := cmykPixelRgb p
      enhanceColor (3 / 4) (quantByte fl.1, quantByte fl.2.1, quantByte fl.2.2)
  else
    img.pilRgb

/- ---------------------------------------------------------------------
   `EPUBGeneratorV2` (epub_generator_v2.py).  The generator writes a file
   tree under a scratch root and zips it.  A tree file is modelled by its
   forward-slash relative path plus the attributes later read back by the
   validator: its decoded content (only consulted for `mimetype`), whether
   `etree.fromstring` accepts its bytes (`xmlOk`; documents serialized by
   `etree.tostring` are always well-formed), and the total character count
   of its text nodes (`textChars`, consulted by the text-content check;
   the whitespace text nodes added by `pretty_print` are not counted, the
   text-content check only compares advisory totals).
   --------------------------------------------------------------------- -/

structure GFile where
  path : String
  content : String
  xmlOk : Bool
  textChars : ℕ
deriving DecidableEq, Repr

/-- Python `int(x)` on a float: truncation toward zero. -/
def ratTrunc (q : ℚ) : ℤ :=
  if 0 ≤ q then ⌊q⌋ else ⌈q⌉

/-- One absolutely positioned image container of a page document
(epub_generator_v2.py lines 344-361).  The `:.1f` style formatting prints
each coordinate rounded to one decimal. -/
structure ImgDiv where
  left : ℚ
  top : ℚ
  width : ℚ
  height : ℚ
  src : String
deriving DecidableEq, Repr

/-- One absolutely positioned text container of a page document
(epub_generator_v2.py lines 363-390). -/
structure TextDiv where
  left : ℚ
  top : ℚ
  text : String
  fontSize : ℚ
  lineHeight : ℚ
  bold : Bool
  italic : Bool
deriving DecidableEq, Repr

/-- The markup of one page document produced by
`EPUBGeneratorV2._generate_page_xhtml`: a body sized to the page holding
the image containers (in extraction order) then the text containers (in
extraction order). -/
structure PageDoc where
  page_num : ℕ
  width : ℤ
  height : ℤ
  imgDivs : List ImgDiv
  textDivs : List TextDiv
deriving DecidableEq, Repr

/-- `EPUBGeneratorV2._generate_page_xhtml`. -/
def generatePageXhtml (page : PageContent) : PageDoc :=
  { page_num := page.page_num
    width := ratTrunc page.page_width
    height := ratTrunc page.page_height
    imgDivs := page.image_elements.map fun img =>
      { left := round1 img.x0
        top := round1 img.y0
        width := round1 img.width
        height := round1 img.height
        src := "images/" ++ img.image_path }
    textDivs := page.text_elements.map fun t =>
      { left := round1 t.x0
        top := round1 t.y0
        text := t.text
        fontSize := round1 t.font_size
        lineHeight := round1 t.line_height
        bold := t.is_bold
        italic := t.is_italic } }

/-- `f"page{page.page_num:03d}.xhtml"` under `OEBPS/`. -/
def pageFileName (n : ℕ) : String :=
  "OEBPS/page" ++ pad3 n ++ ".xhtml"

/-- Characters of the text nodes of one page document: the head `title`
text `"Page {n}"` plus the literal texts of the text containers. -/
def pageDocTextChars (pd : PageDoc) : ℕ :=
  ("Page " ++ toString pd.page_num).length + (pd.textDivs.map fun d => d.text.length).sum

/-- Characters of the text nodes of `OEBPS/nav.xhtml` (title, heading and
one `"Page {n}"` entry per page). -/
def navTextChars (pages : List PageContent) : ℕ :=
  ("Navigation".length + "Table of Contents".length) +
    (pages.map fun p => ("Page " ++ toString p.page_num).length).sum

/-- `EPUBGeneratorV2._copy_images` (lines 77-85): of the extraction
directory's files, the `*.png` ones without `"reference"` in their name
are copied into `OEBPS/images/`. -/
def copyImages (srcNames : List String) : List String :=
  srcNames.filter fun nm => pyEndsWith nm ".png" && !(pyIn "reference" nm)

/-- The file tree the generator lays out under its scratch root before
zipping: the `mimetype` marker written by `_setup_structure` (line 44:
exactly the bytes `application/epub+zip`), the container descriptor, the
package document, `toc.ncx`, `nav.xhtml`, one page document per page, the
stylesheet, and the copied images. -/
def genTree (pages : List PageContent) (imageNames : List String) : List GFile :=
  ⟨"mimetype", "application/epub+zip", false, 0⟩ ::
  ⟨"META-INF/container.xml", "", true, 0⟩ ::
  ⟨"OEBPS/content.opf", "", true, 0⟩ ::
  ⟨"OEBPS/toc.ncx", "", true, 0⟩ ::
  ⟨"OEBPS/nav.xhtml", "", true, navTextChars pages⟩ ::
  ((pages.map fun p =>
      (⟨pageFileName p.page_num, "", true, pageDocTextChars (generatePageXhtml p)⟩ : GFile))
    ++ [⟨"OEBPS/styles.css", "", false, 0⟩]
    ++ imageNames.map fun nm => (⟨"OEBPS/images/" ++ nm, "", false, 0⟩ : GFile))

/-- One member of the produced ZIP archive. -/
structure ZipEntry where
  name : String
  content : String
  xmlOk : Bool
  textChars : ℕ
  compressed : Bool
deriving DecidableEq, Repr

/-- The basename of a forward-slash path (what `os.walk` yields as the
file name). -/
def baseName (p : String) : String :=
  ⟨(p.data.reverse.takeWhile fun c => c ≠ '/').reverse⟩

/-- `EPUBGeneratorV2._package_epub` (lines 459-487): the marker file is
read back and written first and uncompressed (`compress_type=0`); every
other walked file is written with the archive's `ZIP_DEFLATED`
compression, skipping any file whose basename is `mimetype`. -/
def packageEpub (tree : List GFile) : List ZipEntry :=
  let mimetypeContent := ((tree.find? fun f => f.path == "mimetype").map GFile.content).getD ""
  ⟨"mimetype", mimetypeContent, false, 0, false⟩ ::
    (tree.filter fun f => !(baseName f.path == "mimetype")).map
      fun f => ⟨f.path, f.content, f.xmlOk, f.textChars, true⟩

/-- `EPUBGeneratorV2.generate` restricted to what reaches the archive:
lay out the tree for the given pages and source images, then zip it. -/
def generateEpub (pages : List PageContent) (srcImages : List String) : List ZipEntry :=
  packageEpub (genTree pages (copyImages srcImages))

/- ---------------------------------------------------------------------
   `ContentValidator` (validator.py).  Each check re-reads the source PDF
   and the archive; what those reads observe is a `VEnv`.  `archive` is
   `none` when `ZipFile(...)` raises (the per-check `try` blocks turn that
   into an issue or warning).  `pdfOpenOk` models `pdfplumber.open`
   succeeding.  Repeated entry names do not occur in generated archives
   and are not modelled (`ZipFile.read` keeps one entry per name).
   --------------------------------------------------------------------- -/

structure CheckResult where
  name : String
  passed : Bool
deriving DecidableEq, Repr

structure Archive where
  entries : List ZipEntry
deriving DecidableEq, Repr

/-- `epub.namelist()`. -/
def Archive.namelist (a : Archive) : List String :=
  a.entries.map fun e => e.name

/-- `epub.read(nm)` (up to the entry's modelled attributes). -/
def Archive.readEntry (a : Archive) (nm : String) : Option ZipEntry :=
  a.entries.find? fun e => e.name == nm

structure VEnv where
  pdfExists : Bool
  epubExists : Bool
  pdfOpenOk : Bool
  pdfPages : ℕ
  pdfImages : ℕ
  pdfTextChars : ℕ
  archive : Option Archive
deriving DecidableEq, Repr

/-- `ContentValidator._check_files_exist`: each missing path appends an
issue. -/
def checkFilesExist (env : VEnv) : CheckResult × List String :=
  let i1 : List String := if env.pdfExists then [] else ["Source PDF not found"]
  let i2 : List String := if env.epubExists then [] else ["Output EPUB not found"]
  (⟨"File Existence", env.pdfExists && env.epubExists⟩, i1 ++ i2)

def requiredFiles : List String :=
  ["mimetype", "META-INF/container.xml", "OEBPS/content.opf"]

/-- `ContentValidator._check_epub_structure`: required members present and
at least one `.xhtml` member; a failed archive open is an issue. -/
def checkEpubStructure (env : VEnv) : CheckResult × List String :=
  match env.archive with
  | none => (⟨"EPUB Structure", false⟩, ["Failed to read EPUB"])
  | some a =>
    let names := a.namelist
    let missing := requiredFiles.filter fun r => !(names.contains r)
    let missingIssues := missing.map fun r => "Missing required EPUB file: " ++ r
    let xhtmlCount := (names.filter fun n => pyEndsWith n ".xhtml").length
    let noPages : List String :=
      if xhtmlCount == 0 then ["No XHTML page files found in EPUB"] else []
    (⟨"EPUB Structure", missing.isEmpty && !(xhtmlCount == 0)⟩, missingIssues ++ noPages)

/-- `ContentValidator._check_page_count`: the PDF page count is compared
with the number of archive members whose name ends in `.xhtml`. -/
def checkPageCount (env : VEnv) : CheckResult × List String :=
  match env.pdfOpenOk, env.archive with
  | true, some a =>
    let epubPages := (a.namelist.filter fun n => pyEndsWith n ".xhtml").length
    if env.pdfPages == epubPages then (⟨"Page Count", true⟩, [])
    else
      (⟨"Page Count", false⟩,
        ["Page count mismatch: PDF has " ++ toString env.pdfPages ++
          ", EPUB has " ++ toString epubPages])
  | _, _ => (⟨"Page Count", false⟩, ["Could not verify page count"])

/-- `ContentValidator._check_images_present`: zero archive images against
a positive source count is an issue, a smaller positive count only a
warning; a failed read is a warning. -/
def checkImagesPresent (env : VEnv) : CheckResult × List String × List String :=
  match env.pdfOpenOk, env.archive with
  | true, some a =>
    let epubImages :=
      (a.namelist.filter fun n =>
        pyStartsWith n "OEBPS/images/" && !(pyIn "reference" n)).length
    if 0 < env.pdfImages && epubImages == 0 then
      (⟨"Image Preservation", false⟩, ["Images not preserved in EPUB"], [])
    else if 0 < env.pdfImages && epubImages < env.pdfImages then
      (⟨"Image Preservation", true⟩, [],
        ["Some images may be missing: PDF has " ++ toString env.pdfImages ++
          ", EPUB has " ++ toString epubImages])
    else
      (⟨"Image Preservation", true⟩, [], [])
  | _, _ => (⟨"Image Preservation", true⟩, [], ["Could not verify images"])

/-- `ContentValidator._check_text_content`: character totals are compared
(warnings only, `passed` is never cleared); the archive side sums the
text nodes of parseable `.xhtml` members whose name contains `page`. -/
def checkTextContent (env : VEnv) : CheckResult × List String :=
  match env.pdfOpenOk, env.archive with
  | true, some a =>
    let epubChars :=
      ((a.entries.filter fun e => pyEndsWith e.name ".xhtml" && pyIn "page" e.name).map
        fun e => if e.xmlOk then e.textChars else 0).sum
    let w : List String :=
      if 0 < env.pdfTextChars && epubChars == 0 then
        ["No text content found in EPUB"]
      else if 0 < env.pdfTextChars && (epubChars : ℚ) < (env.pdfTextChars : ℚ) * (8 / 10) then
        ["Text content may be incomplete"]
      else []
    (⟨"Text Content", true⟩, w)
  | _, _ => (⟨"Text Content", true⟩, ["Could not verify text"])

/-- Member names whose bytes `_check_epub_validity` feeds to
`etree.fromstring`. -/
def isXmlChecked (nm : String) : Bool :=
  pyEndsWith nm ".xhtml" || pyEndsWith nm ".opf" || pyEndsWith nm ".ncx"

/-- `ContentValidator._check_epub_validity`: the marker file's decoded
content is stripped and compared with `application/epub+zip`; every
`.xhtml`/`.opf`/`.ncx` member must parse; a failed archive open or a
missing marker member raises into the outer `except` and appends a single
issue. -/
def checkEpubValidity (env : VEnv) : CheckResult × List String :=
  match env.archive with
  | none => (⟨"EPUB Validity", false⟩, ["Could not validate EPUB"])
  | some a =>
    match a.readEntry "mimetype" with
    | none => (⟨"EPUB Validity", false⟩, ["Could not validate EPUB"])
    | some me =>
      let mt := pyStrip me.content
      let mtIssues : List String :=
        if mt == "application/epub+zip" then [] else ["Invalid mimetype: " ++ mt]
      let xmlIssues :=
        (a.entries.filter fun e => isXmlChecked e.name && !e.xmlOk).map
          fun e => "Invalid XML in " ++ e.name
      (⟨"EPUB Validity", mtIssues.isEmpty && xmlIssues.isEmpty⟩, mtIssues ++ xmlIssues)

/-- The validation report (`ContentValidator.validate`); the timestamp and
path echo fields carry no checked content and are omitted. -/
structure Report where
  checks : List CheckResult
  issues : List String
  warnings : List String
  overall_status : Bool
deriving DecidableEq, Repr

/-- `ContentValidator.validate`: run the six checks in order, collect the
issues and warnings they append, and set
`overall_status = (len(issues) == 0)`. -/
def validate (env : VEnv) : Report :=
  let r1 := checkFilesExist env
  let r2 := checkEpubStructure env
  let r3 := checkPageCount env
  let r4 := checkImagesPresent env
  let r5 := checkTextContent env
  let r6 := checkEpubValidity env
  let issues := r1.2 ++ r2.2 ++ r3.2 ++ r4.2.1 ++ r6.2
  let warnings := r4.2.2 ++ r5.2
  { checks := [r1.1, r2.1, r3.1, r4.1, r5.1, r6.1]
    issues := issues
    warnings := warnings
    overall_status := issues.isEmpty }

/- ---------------------------------------------------------------------
   Concrete instances used by scenario claims and witnesses.
   --------------------------------------------------------------------- -/

/-- Right edge of the union of a bucket's glyph boxes. -/
def bucketMaxX1 : List Glyph → ℚ
  | [] => 0
  | g :: rest => max g.x1 (bucketMaxX1 rest)

/-- The single `"Hello"` text run of the 1-page scenario: source box
`(10, 10, 60, 30)` on a 200x300 page. -/
def gHello : Glyph :=
  ⟨"Hello", 10, 10, 60, 30, some "Helvetica", some 12⟩

/-- The `TextElement` extraction produces for `gHello` on a page of
height 300. -/
def helloElem : TextElement :=
  ⟨"Hello", 10, 270, 60, 290, "Helvetica", 12, false, false, 20, 1⟩

/-- The scenario's single `PageContent`, assembled the way
`_extract_page` does (text from `_extract_text`, no images). -/
def helloPage : PageContent :=
  ⟨1, 200, 300, extractText 300 1 [gHello], []⟩

/-- The page document the generator renders for the scenario page. -/
def helloDoc : PageDoc :=
  ⟨1, 200, 300, [], [⟨10, 270, "Hello", 12, 20, false, false⟩]⟩

/-- The scenario's generated archive. -/
def helloArchive : Archive :=
  ⟨generateEpub [helloPage] []⟩

/-- The scenario archive's members, written out. -/
def helloEntries : List ZipEntry :=
  [⟨"mimetype", "application/epub+zip", false, 0, false⟩,
   ⟨"META-INF/container.xml", "", true, 0, true⟩,
   ⟨"OEBPS/content.opf", "", true, 0, true⟩,
   ⟨"OEBPS/toc.ncx", "", true, 0, true⟩,
   ⟨"OEBPS/nav.xhtml", "", true, 33, true⟩,
   ⟨"OEBPS/page001.xhtml", "", true, 11, true⟩,
   ⟨"OEBPS/styles.css", "", false, 0, true⟩]

/-- What the validator observes in the scenario: both files exist, the
source has 1 page, no images, 5 extractable characters, and the archive
opens. -/
def helloEnv : VEnv :=
  ⟨true, true, true, 1, 0, 5, some helloArchive⟩

/-- A wide glyph followed by a narrow one on the same line: the bucket's
last glyph (in ascending-`x0` order) does not have the maximal right
edge. -/
def gWide : Glyph :=
  ⟨"a", 0, 10, 50, 20, none, none⟩

def gNarrow : Glyph :=
  ⟨"b", 1, 10, 2, 12, none, none⟩

def cexChars : List Glyph :=
  [gWide, gNarrow]

/-- An archive whose marker content carries a trailing newline but whose
documents all parse. -/
def wsArchive : Archive :=
  ⟨[⟨"mimetype", "application/epub+zip\n", false, 0, false⟩,
    ⟨"META-INF/container.xml", "", true, 0, true⟩,
    ⟨"OEBPS/content.opf", "", true, 0, true⟩,
    ⟨"OEBPS/page001.xhtml", "", true, 11, true⟩]⟩

def wsEnv : VEnv :=
  ⟨true, true, true, 1, 0, 5, some wsArchive⟩

/-- An archive whose marker content is the truncated
`application/epub`. -/
def truncArchive : Archive :=
  ⟨[⟨"mimetype", "application/epub", false, 0, false⟩,
    ⟨"META-INF/container.xml", "", true, 0, true⟩,
    ⟨"OEBPS/content.opf", "", true, 0, true⟩,
    ⟨"OEBPS/page001.xhtml", "", true, 11, true⟩]⟩

def truncEnv : VEnv :=
  ⟨true, true, true, 1, 0, 5, some truncArchive⟩

end PdfToEpub

namespace PdfToEpub

/-- C2: the coordinate transform sends a source vertical extent `(y0, y1)`
on a page of height `h` to `(h - y1, h - y0)`, applying it twice with the
same `h` recovers the original pair exactly (the rational model is exact,
hence within any floating-point tolerance), and the extractor's image
elements carry exactly this transform on their vertical extent while
their horizontal extent is unchanged. -/
theorem C2_flip_formula_and_involutive (h y0 y1 : ℚ) :
    flipY h y0 y1 = (h - y1, h - y0) ∧
    flipY h (flipY h y0 y1).1 (flipY h y0 y1).2 = (y0, y1) ∧
    ∀ (p idx : ℕ) (img : RawImage),
      (mkImgElem h p idx img).y0 = (flipY h img.y0 img.y1).1 ∧
      (mkImgElem h p idx img).y1 = (flipY h img.y0 img.y1).2 ∧
      (mkImgElem h p idx img).x0 = img.x0 ∧
      (mkImgElem h p idx img).x1 = img.x1 := by
  refine ⟨rfl, by simp [flipY], fun p idx img => ⟨rfl, rfl, rfl, rfl⟩⟩

/-- C4: a validation report's `overall_status` is `true` exactly when its
`issues` list is empty; the checks contribute warnings separately and no
warning enters `issues`, so warnings never flip the status. -/
theorem C4_overall_status_iff_no_issues (env : VEnv) :
    (validate env).overall_status = true ↔ (validate env).issues = [] := by
  simp [validate, List.isEmpty_iff]

/-- C9: on a decodable four-channel (inverted-convention CMYK) buffer the
conversion computes, per pixel, the inverted channels `(255 - raw) / 255`,
each RGB channel as `255 * (1 - coverage) * (1 - key)` (cast back to a
byte), and then the saturation blend at the fixed factor `3/4`; when the
buffer cannot be processed it returns PIL's best-effort RGB conversion
instead of raising. -/
theorem C9_cmyk_formula_and_fallback (img : CmykImage) :
    cmykToRgbBalanced img =
      if img.decodeOk then
        img.pixels.map fun p =>
          enhanceColor (3 / 4)
            (((⌊255 * (1 - (255 - (p.c : ℚ)) / 255) * (1 - (255 - (p.k : ℚ)) / 255)⌋).toNat : ℚ),
             ((⌊255 * (1 - (255 - (p.m : ℚ)) / 255) * (1 - (255 - (p.k : ℚ)) / 255)⌋).toNat : ℚ),
             ((⌊255 * (1 - (255 - (p.y : ℚ)) / 255) * (1 - (255 - (p.k : ℚ)) / 255)⌋).toNat : ℚ))
      else img.pilRgb := by
  rfl

/-- C3: every archive the generator packages starts with the `mimetype`
entry, stored uncompressed with content exactly `application/epub+zip`,
and every other entry is written with compression. -/
theorem C3_mimetype_first_uncompressed (pages : List PageContent) (srcImages : List String) :
    ∃ rest,
      generateEpub pages srcImages =
        (⟨"mimetype", "application/epub+zip", false, 0, false⟩ : ZipEntry) :: rest ∧
      ∀ e ∈ rest, e.compressed = true := by
  refine ⟨_, rfl, ?_⟩
  intro e he
  simp only [List.mem_map] at he
  obtain ⟨f, -, rfl⟩ := he
  rfl

/-- Index-generalized description of the `_extract_images` loop: the
successful images produce their elements at their enumeration index, the
failed ones produce exactly one warning each. -/
theorem extractImagesGo_spec (h : ℚ) (p : ℕ) (imgs : List RawImage) :
    ∀ i : ℕ,
      (extractImagesGo h p i imgs).1 =
        (imgs.enumFrom i).filterMap
          (fun x => if x.2.decodeOk then some (mkImgElem h p x.1 x.2) else none) ∧
      (extractImagesGo h p i imgs).2.length =
        (imgs.filter fun img => !img.decodeOk).length := by
  induction imgs with
  | nil => intro i; simp [extractImagesGo]
  | cons img rest ih =>
    intro i
    rcases ih (i + 1) with ⟨ih1, ih2⟩
    by_cases hd : img.decodeOk
    · simp [extractImagesGo, hd, List.enumFrom, ih1, ih2]
    · simp only [Bool.not_eq_true] at hd
      simp [extractImagesGo, hd, List.enumFrom, ih1, ih2]

/-- C8: a failing image (its decode/convert/save pipeline raises) yields
no `ImageElement` and exactly one logged warning; every other image of
the page is still processed at its own loop index, so extraction of the
remaining content completes. -/
theorem C8_image_failure_skipped_rest_extracted (h : ℚ) (p : ℕ) (imgs : List RawImage) :
    (extractImages h p imgs).1 =
      imgs.enum.filterMap
        (fun x => if x.2.decodeOk then some (mkImgElem h p x.1 x.2) else none) ∧
    (extractImages h p imgs).2.length =
      (imgs.filter fun img => !img.decodeOk).length := by
  have := extractImagesGo_spec h p imgs 0
  simpa [extractImages, List.enum] using this

/-- The texts of the emitted elements are exactly the bucket
concatenations, in key order, with whitespace-only lines filtered out. -/
theorem filterMap_texts (H : ℚ) (p : ℕ) (chars : List Glyph) (keys : List ℚ) :
    ((keys.filterMap fun y => mkLineElem H p (lineChars chars y)).map fun e => e.text) =
      (keys.map fun y => lineText (lineChars chars y)).filter fun s => !(pyStrip s == "") := by
  induction keys with
  | nil => rfl
  | cons y ks ih =>
    rw [List.filterMap_cons, List.map_cons, List.filter_cons]
    cases hlc : lineChars chars y with
    | nil =>
      have hnone : mkLineElem H p ([] : List Glyph) = none := rfl
      have hempty : pyStrip (lineText ([] : List Glyph)) = "" := by decide
      simp [hnone, hempty, ih]
    | cons c0 rest =>
      by_cases hs : pyStrip (lineText (c0 :: rest)) = ""
      · have hnone : mkLineElem H p (c0 :: rest) = none := by
          simp [mkLineElem, hs]
        simp [hnone, hs, ih]
      · cases hmk : mkLineElem H p (c0 :: rest) with
        | none =>
          rw [mkLineElem, if_neg hs] at hmk
          exact absurd hmk (by simp)
        | some e =>
          rw [mkLineElem, if_neg hs] at hmk
          obtain rfl := Option.some.inj hmk
          simp [hs, ih]

/-- C5: glyphs are bucketed by the exact value of their `y0` coordinate
rounded to one decimal; every glyph lands in a bucket, a bucket holds
exactly the glyphs with its rounded value, buckets are sorted by
ascending left-`x`, their texts are concatenated in that order, and a
bucket whose concatenation is empty or whitespace-only yields no
element. -/
theorem C5_line_grouping (H : ℚ) (p : ℕ) (chars : List Glyph) :
    (((extractText H p chars).map fun e => e.text) =
      (((lineKeys chars).map fun y => lineText (lineChars chars y)).filter
        fun s => !(pyStrip s == ""))) ∧
    (∀ g ∈ chars, round1 g.y0 ∈ lineKeys chars) ∧
    (∀ y : ℚ, ∀ g : Glyph, g ∈ lineChars chars y ↔ g ∈ chars ∧ round1 g.y0 = y) ∧
    (∀ y : ℚ, (lineChars chars y).Sorted fun a b => a.x0 ≤ b.x0) := by
  refine ⟨filterMap_texts H p chars _, ?_, ?_, ?_⟩
  · intro g hg
    have : round1 g.y0 ∈ (chars.map fun c => round1 c.y0).dedup := by
      rw [List.mem_dedup, List.mem_map]
      exact ⟨g, hg, rfl⟩
    exact ((List.perm_insertionSort _ _).mem_iff).2 this
  · intro y g
    rw [lineChars, (List.perm_insertionSort _ _).mem_iff, List.mem_filter]
    simp
  · intro y
    haveI : IsTotal Glyph fun a b => a.x0 ≤ b.x0 := ⟨fun a b => le_total a.x0 b.x0⟩
    haveI : IsTrans Glyph fun a b => a.x0 ≤ b.x0 := ⟨fun _ _ _ h1 h2 => le_trans h1 h2⟩
    exact List.sorted_insertionSort _ _

/-- Evaluation lemma: `round(10.0, 1) = 10.0`. -/
theorem round1_ten : round1 10 = 10 := by
  rw [round1]
  norm_num [round_eq]

/-- The scenario glyph's bucket structure. -/
theorem lineKeys_hello : lineKeys [gHello] = [10] := by
  simp [lineKeys, gHello, round1_ten, List.insertionSort, List.orderedInsert]

theorem lineChars_hello : lineChars [gHello] 10 = [gHello] := by
  simp [lineChars, gHello, round1_ten, List.insertionSort, List.orderedInsert]

/-- Evaluation of the extractor on the scenario page. -/
theorem extractText_hello : extractText 300 1 [gHello] = [helloElem] := by
  have hne : ¬ pyStrip (lineText [gHello]) = "" := by decide
  rw [extractText, lineKeys_hello]
  simp only [List.filterMap_cons, List.filterMap_nil, lineChars_hello]
  rw [mkLineElem]
  simp only [hne, if_false]
  norm_num [helloElem, gHello, lineText, TextElement.mk.injEq]
  decide

/-- C5 witness: on the concrete scenario page the theorem's bucket
characterization places the glyph in the bucket keyed by its rounded
`y0`, and the text characterization evaluates. -/
theorem C5_line_grouping_witness :
    gHello ∈ lineChars [gHello] 10 ∧
    ((extractText 300 1 [gHello]).map fun e => e.text) =
      (((lineKeys [gHello]).map fun y => lineText (lineChars [gHello] y)).filter
        fun s => !(pyStrip s == "")) := by
  obtain ⟨h1, _h2, h3, _h4⟩ := C5_line_grouping 300 1 [gHello]
  refine ⟨(h3 10 gHello).2 ⟨List.mem_singleton.2 rfl, ?_⟩, h1⟩
  show round1 gHello.y0 = 10
  have : gHello.y0 = 10 := rfl
  rw [this, round1_ten]

/-- C6 (amended): every emitted element takes its font name and size
from the first glyph of its bucket (in ascending-left-`x` order), its
bold/italic flags from the `Bold` / `Italic` / `Oblique` substring
heuristic on that font name, and its box from the first and last glyphs
of the bucket — left and (pre-flip) bottom from the first, right and
(pre-flip) top from the last — rather than from the union of all the
glyphs' boxes. -/
theorem C6_bucket_element_attributes (H : ℚ) (p : ℕ) (chars : List Glyph)
    (e : TextElement) (he : e ∈ extractText H p chars) :
    ∃ y ∈ lineKeys chars, ∃ c0 rest, lineChars chars y = c0 :: rest ∧
      e.text = lineText (c0 :: rest) ∧
      e.x0 = c0.x0 ∧ e.x1 = (rest.getLastD c0).x1 ∧
      e.y0 = H - (rest.getLastD c0).y1 ∧ e.y1 = H - c0.y0 ∧
      e.font_name = c0.font.getD "Unknown" ∧
      e.font_size = c0.size.getD 12 ∧
      e.is_bold = pyIn "Bold" e.font_name ∧
      e.is_italic = (pyIn "Italic" e.font_name || pyIn "Oblique" e.font_name) := by
  rw [extractText, List.mem_filterMap] at he
  obtain ⟨y, hy, hmk⟩ := he
  refine ⟨y, hy, ?_⟩
  cases hlc : lineChars chars y with
  | nil =>
    rw [hlc] at hmk
    exact absurd hmk (by simp [mkLineElem])
  | cons c0 rest =>
    rw [hlc] at hmk
    refine ⟨c0, rest, rfl, ?_⟩
    by_cases hs : pyStrip (lineText (c0 :: rest)) = ""
    · simp [mkLineElem, hs] at hmk
    · rw [mkLineElem] at hmk
      simp only [hs, if_false, Option.some.injEq] at hmk
      subst hmk
      exact ⟨rfl, rfl, rfl, rfl, rfl, rfl, rfl, rfl, rfl⟩

/-- C6 witness: the theorem applied to the scenario element. -/
theorem C6_bucket_element_attributes_witness :
    ∃ y ∈ lineKeys [gHello], ∃ c0 rest, lineChars [gHello] y = c0 :: rest ∧
      helloElem.text = lineText (c0 :: rest) ∧
      helloElem.x0 = c0.x0 ∧ helloElem.x1 = (rest.getLastD c0).x1 ∧
      helloElem.y0 = 300 - (rest.getLastD c0).y1 ∧ helloElem.y1 = 300 - c0.y0 ∧
      helloElem.font_name = c0.font.getD "Unknown" ∧
      helloElem.font_size = c0.size.getD 12 ∧
      helloElem.is_bold = pyIn "Bold" helloElem.font_name ∧
      helloElem.is_italic =
        (pyIn "Italic" helloElem.font_name || pyIn "Oblique" helloElem.font_name) := by
  apply C6_bucket_element_attributes 300 1 [gHello] helloElem
  rw [extractText_hello]
  exact List.mem_singleton.2 rfl

/-- C6 counterexample: with a wide glyph and a narrow glyph on one line,
the emitted element's right edge is the last glyph's `x1` (2), while the
union of the bucket's glyph boxes reaches `x1 = 50`; the element's box is
therefore not the union of its glyphs' boxes. -/
theorem C6_counterexample_box_not_union :
    ((extractText 100 1 cexChars).map fun e => e.x1) = [2] ∧
    bucketMaxX1 (lineChars cexChars 10) = 50 ∧
    ¬ ((2 : ℚ) = 50) := by
  have hbucket : lineChars cexChars 10 = [gWide, gNarrow] := by
    simp [lineChars, cexChars, gWide, gNarrow, round1_ten, List.insertionSort,
      List.orderedInsert]
  have hkeys : lineKeys cexChars = [10] := by
    simp [lineKeys, cexChars, gWide, gNarrow, round1_ten, List.insertionSort,
      List.orderedInsert]
  refine ⟨?_, ?_, by norm_num⟩
  · rw [extractText, hkeys]
    simp only [List.filterMap_cons, List.filterMap_nil, hbucket]
    rw [mkLineElem]
    have hne : ¬ pyStrip (lineText [gWide, gNarrow]) = "" := by decide
    simp only [hne, if_false]
    simp [gWide, gNarrow]
  · rw [hbucket]
    simp [bucketMaxX1, gWide, gNarrow]
    norm_num

/-- Any issue appended by the validity check makes the whole report
fail. -/
theorem validity_issues_nonempty_overall_false (env : VEnv)
    (h : (checkEpubValidity env).2 ≠ []) : (validate env).overall_status = false := by
  have hne :
      ¬ ((checkFilesExist env).2 ++ (checkEpubStructure env).2 ++ (checkPageCount env).2 ++
          (checkImagesPresent env).2.1 ++ (checkEpubValidity env).2 = []) := by
    intro hc
    simp only [List.append_eq_nil] at hc
    exact h hc.2
  simp only [validate]
  rw [List.isEmpty_eq_false]
  exact hne

/-- C7 counterexample: an archive whose marker content is
`application/epub+zip` followed by a newline — so the content does not
equal the required string — passes the validity check without any issue
(the source compares the whitespace-stripped content), and the whole
report stays green. -/
theorem C7_counterexample_whitespace_marker :
    (checkEpubValidity wsEnv).2 = [] ∧
    (validate wsEnv).overall_status = true ∧
    ∃ me, wsArchive.readEntry "mimetype" = some me ∧
      ¬ me.content = "application/epub+zip" := by
  decide

/-- C7 (amended): the validity check appends an issue if and only if the
marker file's whitespace-stripped content differs from
`application/epub+zip` or some `.xhtml`/`.opf`/`.ncx` member fails to
parse; in particular the truncated marker content `application/epub`
yields an issue and a failed overall status. -/
theorem C7_validity_check_amended (env : VEnv) (a : Archive) (me : ZipEntry)
    (ha : env.archive = some a) (hm : a.readEntry "mimetype" = some me) :
    ((checkEpubValidity env).2 ≠ [] ↔
      (¬ pyStrip me.content = "application/epub+zip" ∨
        ∃ e ∈ a.entries, isXmlChecked e.name = true ∧ e.xmlOk = false)) ∧
    (¬ pyStrip me.content = "application/epub+zip" →
      (validate env).overall_status = false) := by
  have hck : (checkEpubValidity env).2 =
      (if pyStrip me.content == "application/epub+zip" then ([] : List String)
       else ["Invalid mimetype: " ++ pyStrip me.content]) ++
      ((a.entries.filter fun e => isXmlChecked e.name && !e.xmlOk).map
        fun e => "Invalid XML in " ++ e.name) := by
    simp only [checkEpubValidity, ha, hm]
  constructor
  · rw [hck]
    by_cases hb : pyStrip me.content = "application/epub+zip"
    · simp only [hb, beq_self_eq_true, if_true, List.nil_append, hb, not_true, false_or]
      rw [Ne, List.map_eq_nil_iff, List.filter_eq_nil_iff]
      push_neg
      simp
    · simp [hb]
  · intro hb
    apply validity_issues_nonempty_overall_false
    rw [hck]
    simp [hb]

/-- C7 witness: the amended theorem applied to the truncated-marker
archive fails the report. -/
theorem C7_validity_check_amended_witness :
    (validate truncEnv).overall_status = false := by
  have h := C7_validity_check_amended truncEnv truncArchive
    ⟨"mimetype", "application/epub", false, 0, false⟩ rfl (by decide)
  exact h.2 (by decide)

/-- A string obtained by appending a suffix ends with that suffix. -/
theorem pageFileName_endsWith (n : ℕ) : pyEndsWith (pageFileName n) ".xhtml" = true := by
  rw [pageFileName, pyEndsWith, List.isSuffixOf_iff_suffix, String.data_append]
  exact List.suffix_append _ _

/-- A string ending with a nonempty pattern has the pattern's last
character as its own last character. -/
theorem getLast?_of_endsWith (s pat : String) (c : Char)
    (hp : pat.data.getLast? = some c) (h : pyEndsWith s pat = true) :
    s.data.getLast? = some c := by
  rw [pyEndsWith, List.isSuffixOf_iff_suffix] at h
  obtain ⟨t, ht⟩ := h
  rw [← ht, List.getLast?_append, hp]
  rfl

/-- The basename keeps the last character when it is not a slash. -/
theorem baseName_getLast (s : String) (c : Char) (hc : ¬ c = '/')
    (h : s.data.getLast? = some c) : (baseName s).data.getLast? = some c := by
  have h1 : s.data.reverse.head? = some c := by
    rw [List.head?_reverse, h]
  cases hrev : s.data.reverse with
  | nil => rw [hrev] at h1; exact absurd h1 (by simp)
  | cons c' t =>
    rw [hrev] at h1
    have hcc : c' = c := by simpa using h1
    subst hcc
    show ((s.data.reverse.takeWhile fun ch => ch ≠ '/').reverse).getLast? = some c'
    rw [hrev, List.takeWhile_cons]
    simp [hc]

/-- A walked file whose name ends in a character other than `e` (and not
a slash) is not the marker file. -/
theorem baseName_ne_mimetype (s : String) (c : Char) (hc : ¬ c = '/')
    (hne : ¬ c = 'e') (h : s.data.getLast? = some c) :
    (baseName s == "mimetype") = false := by
  rw [beq_eq_false_iff_ne]
  intro heq
  have hlast := baseName_getLast s c hc h
  rw [heq] at hlast
  have h2 : ("mimetype" : String).data.getLast? = some 'e' := by decide
  rw [h2] at hlast
  exact hne (Option.some.inj hlast).symm

theorem pageFileName_getLast (n : ℕ) : (pageFileName n).data.getLast? = some 'l' :=
  getLast?_of_endsWith _ ".xhtml" 'l' (by decide) (pageFileName_endsWith n)

theorem pageFileName_base_ne (n : ℕ) :
    (baseName (pageFileName n) == "mimetype") = false :=
  baseName_ne_mimetype _ 'l' (by decide) (by decide) (pageFileName_getLast n)

/-- A string whose last character differs from a nonempty pattern's last
character does not end with the pattern. -/
theorem pyEndsWith_eq_false_of_getLast (s pat : String) (c c' : Char)
    (hs : s.data.getLast? = some c) (hp : pat.data.getLast? = some c')
    (hne : ¬ c = c') : pyEndsWith s pat = false := by
  cases hpe : pyEndsWith s pat with
  | false => rfl
  | true =>
    have := getLast?_of_endsWith s pat c' hp hpe
    rw [hs] at this
    exact absurd (Option.some.inj this) hne

/-- Properties of an archived image path whose source name ends in
`.png`: it is not counted by an `.xhtml` filter and is not skipped as the
marker file. -/
theorem imagePath_props (nm : String) (h : pyEndsWith nm ".png" = true) :
    pyEndsWith ("OEBPS/images/" ++ nm) ".xhtml" = false ∧
    (baseName ("OEBPS/images/" ++ nm) == "mimetype") = false := by
  have h1 : nm.data.getLast? = some 'g' :=
    getLast?_of_endsWith nm ".png" 'g' (by decide) h
  have hlast : ("OEBPS/images/" ++ nm).data.getLast? = some 'g' := by
    rw [String.data_append, List.getLast?_append, h1]
    rfl
  exact ⟨pyEndsWith_eq_false_of_getLast _ ".xhtml" 'g' 'l' hlast (by decide) (by decide),
    baseName_ne_mimetype _ 'g' (by decide) (by decide) hlast⟩

/-- The member names of a generated archive, in packaging order. -/
theorem generateEpub_names (pages : List PageContent) (srcImages : List String) :
    (generateEpub pages srcImages).map (fun e => e.name) =
      "mimetype" :: "META-INF/container.xml" :: "OEBPS/content.opf" :: "OEBPS/toc.ncx" ::
        "OEBPS/nav.xhtml" ::
        ((pages.map fun p => pageFileName p.page_num) ++ ["OEBPS/styles.css"] ++
          (copyImages srcImages).map fun nm => "OEBPS/images/" ++ nm) := by
  rw [generateEpub, packageEpub, genTree]
  have hpages :
      ((pages.map fun p =>
          (⟨pageFileName p.page_num, "", true, pageDocTextChars (generatePageXhtml p)⟩ :
            GFile)).filter fun f => !(baseName f.path == "mimetype")) =
        pages.map fun p =>
          (⟨pageFileName p.page_num, "", true, pageDocTextChars (generatePageXhtml p)⟩ :
            GFile) := by
    rw [List.filter_eq_self]
    intro f hf
    rw [List.mem_map] at hf
    obtain ⟨p, -, rfl⟩ := hf
    simp [pageFileName_base_ne]
  have himgs :
      (((copyImages srcImages).map fun nm =>
          (⟨"OEBPS/images/" ++ nm, "", false, 0⟩ : GFile)).filter
          fun f => !(baseName f.path == "mimetype")) =
        (copyImages srcImages).map fun nm => (⟨"OEBPS/images/" ++ nm, "", false, 0⟩ : GFile) := by
    rw [List.filter_eq_self]
    intro f hf
    rw [List.mem_map] at hf
    obtain ⟨nm, hnm, rfl⟩ := hf
    have h2 := hnm
    rw [copyImages, List.mem_filter, Bool.and_eq_true] at h2
    simp [(imagePath_props nm h2.2.1).2]
  have b0 : (baseName "mimetype" == "mimetype") = true := by decide
  have b1 : (baseName "META-INF/container.xml" == "mimetype") = false := by decide
  have b2 : (baseName "OEBPS/content.opf" == "mimetype") = false := by decide
  have b3 : (baseName "OEBPS/toc.ncx" == "mimetype") = false := by decide
  have b4 : (baseName "OEBPS/nav.xhtml" == "mimetype") = false := by decide
  have b5 : (baseName "OEBPS/styles.css" == "mimetype") = false := by decide
  simp [List.filter_cons, List.filter_append, hpages, himgs, b0, b1, b2, b3, b4, b5,
    List.map_map]
  rfl

/-- C10: for any N-page input the generated archive has exactly N+1
members whose name ends in `.xhtml` — the N page documents and the
navigation document `OEBPS/nav.xhtml`, which the `.xhtml`-suffix filter
also selects.  (The distinct-page-file-name hypothesis records that the
per-page writes do not overwrite each other on disk, which holds for the
generator's contiguous 1..N page numbering.) -/
theorem C10_xhtml_count (pages : List PageContent) (srcImages : List String)
    (_hnodup : (pages.map fun p => pageFileName p.page_num).Nodup) :
    ((((generateEpub pages srcImages).map fun e => e.name).filter
        fun n => pyEndsWith n ".xhtml").length = pages.length + 1) ∧
    "OEBPS/nav.xhtml" ∈ (((generateEpub pages srcImages).map fun e => e.name).filter
        fun n => pyEndsWith n ".xhtml") := by
  rw [generateEpub_names]
  have hpagesf :
      ((pages.map fun p => pageFileName p.page_num).filter
          fun n => pyEndsWith n ".xhtml") =
        pages.map fun p => pageFileName p.page_num := by
    rw [List.filter_eq_self]
    intro n hn
    rw [List.mem_map] at hn
    obtain ⟨p, -, rfl⟩ := hn
    exact pageFileName_endsWith p.page_num
  have himgsf :
      (((copyImages srcImages).map fun nm => "OEBPS/images/" ++ nm).filter
          fun n => pyEndsWith n ".xhtml") = [] := by
    rw [List.filter_eq_nil_iff]
    intro n hn
    rw [List.mem_map] at hn
    obtain ⟨nm, hnm, rfl⟩ := hn
    have h2 := hnm
    rw [copyImages, List.mem_filter, Bool.and_eq_true] at h2
    simp [(imagePath_props nm h2.2.1).1]
  have e0 : pyEndsWith "mimetype" ".xhtml" = false := by decide
  have e1 : pyEndsWith "META-INF/container.xml" ".xhtml" = false := by decide
  have e2 : pyEndsWith "OEBPS/content.opf" ".xhtml" = false := by decide
  have e3 : pyEndsWith "OEBPS/toc.ncx" ".xhtml" = false := by decide
  have e4 : pyEndsWith "OEBPS/nav.xhtml" ".xhtml" = true := by decide
  have e5 : pyEndsWith "OEBPS/styles.css" ".xhtml" = false := by decide
  constructor
  · simp [List.filter_cons, List.filter_append, hpagesf, himgsf, e0, e1, e2, e3, e4, e5]
  · simp [List.filter_cons, e0, e1, e2, e3, e4]

/-- C10 witness: the scenario's 1-page archive has exactly two `.xhtml`
members. -/
theorem C10_xhtml_count_witness :
    (((generateEpub [helloPage] []).map fun e => e.name).filter
        fun n => pyEndsWith n ".xhtml").length = 1 + 1 :=
  (C10_xhtml_count [helloPage] [] (by simp)).1

/-- Evaluation of the generator's page document on the scenario page. -/
theorem generatePageXhtml_hello : generatePageXhtml helloPage = helloDoc := by
  have hp : helloPage.text_elements = [helloElem] := extractText_hello
  have hi : helloPage.image_elements = [] := rfl
  rw [generatePageXhtml, hp, hi]
  norm_num [helloPage, helloDoc, helloElem, round1, round_eq, ratTrunc,
    PageDoc.mk.injEq, TextDiv.mk.injEq]

/-- Evaluation of the whole generated archive of the scenario. -/
theorem generateEpub_hello : generateEpub [helloPage] [] = helloEntries := by
  have hnum : helloPage.page_num = 1 := rfl
  rw [generateEpub, genTree]
  simp only [copyImages, List.filter_nil, List.map_cons, List.map_nil, List.append_nil,
    hnum, generatePageXhtml_hello]
  decide

/-- C1: on the 1-page `"Hello"` scenario the generated package has
exactly one page document, whose single text container sits at top-left
`(10, 270)` as the claim states; but the validate run reports
`overall_status = false`, because `_check_page_count` counts every
`.xhtml` member — including the navigation document `OEBPS/nav.xhtml`
that the V2 generator always emits — and so flags `PDF has 1, EPUB has
2`.  The claim's `overallStatus == true` is the intended behaviour; the
validator's page filter is the slip. -/
theorem C1_hello_scenario_page_count_bug :
    (generatePageXhtml helloPage).textDivs = [⟨10, 270, "Hello", 12, 20, false, false⟩] ∧
    (helloArchive.namelist.filter fun n =>
        pyStartsWith n "OEBPS/page" && pyEndsWith n ".xhtml") = ["OEBPS/page001.xhtml"] ∧
    (validate helloEnv).overall_status = false ∧
    "Page count mismatch: PDF has 1, EPUB has 2" ∈ (validate helloEnv).issues := by
  have ha : helloArchive = ⟨helloEntries⟩ := congrArg Archive.mk generateEpub_hello
  have he : helloEnv = ⟨true, true, true, 1, 0, 5, some ⟨helloEntries⟩⟩ := by
    rw [show helloEnv = ⟨true, true, true, 1, 0, 5, some helloArchive⟩ from rfl, ha]
  refine ⟨?_, ?_, ?_, ?_⟩
  · rw [generatePageXhtml_hello]
    rfl
  · rw [ha]
    decide
  · rw [he]
    decide
  · rw [he]
    decide

end PdfToEpub
